import Mathlib

/-!
# Verification of the Geo-Zone Alert Distribution Engine

A shallow embedding of the alert-distribution core of the repository:

* `src/src/services/locationService.ts` — Haversine distance and the
  partition of the city catalog into distance-band zones;
* `src/src/services/enhancedAlertService.ts` — severity degradation per
  zone and the subscriber → recipient filtering pipeline;
* `src/supabase/functions/send-emergency-alert/index.ts` — the delivery
  dispatcher: configuration gates, task enumeration, message building,
  concurrent settle-all fan-out and report aggregation.

Numbers that the source manipulates as JS floats are modelled as exact
rationals (the literals in the source are decimal) and, where the
trigonometric Haversine formula is involved, as real numbers.  JS string
truthiness (`undefined` / `''` are falsy) is modelled by `optTruthy` over
`Option String`.
-/

/-- Alert severity, the `'critical' | 'warning' | 'info'` union type. -/
inductive Severity
  | critical
  | warning
  | info
  deriving DecidableEq, Repr

/-- The string a `Severity` denotes in the source (severities are plain
strings in TypeScript). -/
def sevString : Severity → String
  | .critical => "critical"
  | .warning => "warning"
  | .info => "info"

/-- Zone kind, the `'immediate' | 'nearby' | 'regional'` union type. -/
inductive ZoneKind
  | immediate
  | nearby
  | regional
  deriving DecidableEq, Repr

/-- The string a `ZoneKind` denotes in the source. -/
def zoneString : ZoneKind → String
  | .immediate => "immediate"
  | .nearby => "nearby"
  | .regional => "regional"

/-- `LocationCoordinates` from `locationService.ts`: `{lat, lng}` in decimal
degrees.  The decimal literals of the catalog are exact rationals. -/
structure Coordinates where
  lat : ℚ
  lng : ℚ
  deriving DecidableEq, Repr

/-- `LocationInfo` from `locationService.ts`. -/
structure LocationInfo where
  city : String
  state : String
  coordinates : Coordinates
  region : String
  deriving DecidableEq, Repr

/-- `LocationService.toRadians`, over the reals. -/
noncomputable def toRadians (degrees : ℚ) : ℝ :=
  (degrees : ℝ) * (Real.pi / 180)

/-- JavaScript `Math.atan2`, restricted to the real plane. -/
noncomputable def atan2 (y x : ℝ) : ℝ :=
  if 0 < x then Real.arctan (y / x)
  else if x < 0 ∧ 0 ≤ y then Real.arctan (y / x) + Real.pi
  else if x < 0 then Real.arctan (y / x) - Real.pi
  else if 0 < y then Real.pi / 2
  else if y < 0 then -(Real.pi / 2)
  else 0

/-- `LocationService.calculateDistance`: great-circle (Haversine) distance
in kilometres, Earth radius 6371 km. -/
noncomputable def calculateDistance (coord1 coord2 : Coordinates) : ℝ :=
  let R : ℝ := 6371
  let dLat := toRadians (coord2.lat - coord1.lat)
  let dLng := toRadians (coord2.lng - coord1.lng)
  let a :=
    Real.sin (dLat / 2) * Real.sin (dLat / 2) +
      Real.cos (toRadians coord1.lat) * Real.cos (toRadians coord2.lat) *
      Real.sin (dLng / 2) * Real.sin (dLng / 2)
  let c := 2 * atan2 (Real.sqrt a) (Real.sqrt (1 - a))
  R * c

/-- Helper to build one catalog entry (keeps elaboration of the big list fast). -/
def mkLoc (city state : String) (lat lng : ℚ) (region : String) : LocationInfo :=
  ⟨city, state, ⟨lat, lng⟩, region⟩

/-- `LocationService.getMajorIndianCities`: the read-only location catalog. -/
def getMajorIndianCities : List LocationInfo := [
  mkLoc "Mumbai" "Maharashtra" 19.0760 72.8777 "West",
  mkLoc "Delhi" "Delhi" 28.7041 77.1025 "North",
  mkLoc "Bengaluru" "Karnataka" 12.9716 77.5946 "South",
  mkLoc "Chennai" "Tamil Nadu" 13.0827 80.2707 "South",
  mkLoc "Kolkata" "West Bengal" 22.5726 88.3639 "East",
  mkLoc "Hyderabad" "Telangana" 17.3850 78.4867 "South",
  mkLoc "Pune" "Maharashtra" 18.5204 73.8567 "West",
  mkLoc "Ahmedabad" "Gujarat" 23.0225 72.5714 "West",
  mkLoc "Jaipur" "Rajasthan" 26.9124 75.7873 "North",
  mkLoc "Lucknow" "Uttar Pradesh" 26.8467 80.9462 "North",
  mkLoc "Kanpur" "Uttar Pradesh" 26.4499 80.3319 "North",
  mkLoc "Nagpur" "Maharashtra" 21.1458 79.0882 "Central",
  mkLoc "Indore" "Madhya Pradesh" 22.7196 75.8577 "Central",
  mkLoc "Thane" "Maharashtra" 19.2183 72.9781 "West",
  mkLoc "Bhopal" "Madhya Pradesh" 23.2599 77.4126 "Central",
  mkLoc "Visakhapatnam" "Andhra Pradesh" 17.6868 83.2185 "South",
  mkLoc "Pimpri-Chinchwad" "Maharashtra" 18.6298 73.7997 "West",
  mkLoc "Patna" "Bihar" 25.5941 85.1376 "East",
  mkLoc "Vadodara" "Gujarat" 22.3072 73.1812 "West",
  mkLoc "Ghaziabad" "Uttar Pradesh" 28.6692 77.4538 "North",
  mkLoc "Ludhiana" "Punjab" 30.9010 75.8573 "North",
  mkLoc "Agra" "Uttar Pradesh" 27.1767 78.0081 "North",
  mkLoc "Nashik" "Maharashtra" 19.9975 73.7898 "West",
  mkLoc "Faridabad" "Haryana" 28.4089 77.3178 "North",
  mkLoc "Meerut" "Uttar Pradesh" 28.9845 77.7064 "North",
  mkLoc "Rajkot" "Gujarat" 22.3039 70.8022 "West",
  mkLoc "Kalyan-Dombivli" "Maharashtra" 19.2403 73.1305 "West",
  mkLoc "Vasai-Virar" "Maharashtra" 19.4912 72.8054 "West",
  mkLoc "Varanasi" "Uttar Pradesh" 25.3176 82.9739 "North",
  mkLoc "Srinagar" "Jammu and Kashmir" 34.0837 74.7973 "North",
  mkLoc "Aurangabad" "Maharashtra" 19.8762 75.3433 "West",
  mkLoc "Dhanbad" "Jharkhand" 23.7957 86.4304 "East",
  mkLoc "Amritsar" "Punjab" 31.6340 74.8723 "North",
  mkLoc "Navi Mumbai" "Maharashtra" 19.0330 73.0297 "West",
  mkLoc "Allahabad" "Uttar Pradesh" 25.4358 81.8463 "North",
  mkLoc "Ranchi" "Jharkhand" 23.3441 85.3096 "East",
  mkLoc "Howrah" "West Bengal" 22.5958 88.2636 "East",
  mkLoc "Coimbatore" "Tamil Nadu" 11.0168 76.9558 "South",
  mkLoc "Jabalpur" "Madhya Pradesh" 23.1815 79.9864 "Central",
  mkLoc "Gwalior" "Madhya Pradesh" 26.2183 78.1828 "Central",
  mkLoc "Vijayawada" "Andhra Pradesh" 16.5062 80.6480 "South",
  mkLoc "Jodhpur" "Rajasthan" 26.2389 73.0243 "North",
  mkLoc "Madurai" "Tamil Nadu" 9.9252 78.1198 "South",
  mkLoc "Raipur" "Chhattisgarh" 21.2514 81.6296 "Central",
  mkLoc "Kota" "Rajasthan" 25.2138 75.8648 "North",
  mkLoc "Chandigarh" "Chandigarh" 30.7333 76.7794 "North",
  mkLoc "Guwahati" "Assam" 26.1445 91.7362 "Northeast",
  mkLoc "Solapur" "Maharashtra" 17.6599 75.9064 "West",
  mkLoc "Hubli-Dharwad" "Karnataka" 15.3647 75.1240 "South",
  mkLoc "Bareilly" "Uttar Pradesh" 28.3670 79.4304 "North",
  mkLoc "Moradabad" "Uttar Pradesh" 28.8386 78.7733 "North",
  mkLoc "Mysore" "Karnataka" 12.2958 76.6394 "South",
  mkLoc "Gurgaon" "Haryana" 28.4595 77.0266 "North",
  mkLoc "Aligarh" "Uttar Pradesh" 27.8974 78.0880 "North",
  mkLoc "Jalandhar" "Punjab" 31.3260 75.5762 "North",
  mkLoc "Tiruchirappalli" "Tamil Nadu" 10.7905 78.7047 "South",
  mkLoc "Bhubaneswar" "Odisha" 20.2961 85.8245 "East",
  mkLoc "Salem" "Tamil Nadu" 11.6643 78.1460 "South",
  mkLoc "Warangal" "Telangana" 17.9689 79.5941 "South",
  mkLoc "Mira-Bhayandar" "Maharashtra" 19.2952 72.8544 "West",
  mkLoc "Thiruvananthapuram" "Kerala" 8.5241 76.9366 "South",
  mkLoc "Bhiwandi" "Maharashtra" 19.3002 73.0635 "West",
  mkLoc "Saharanpur" "Uttar Pradesh" 29.9680 77.5552 "North",
  mkLoc "Guntur" "Andhra Pradesh" 16.3067 80.4365 "South",
  mkLoc "Amravati" "Maharashtra" 20.9374 77.7796 "West",
  mkLoc "Bikaner" "Rajasthan" 28.0229 73.3119 "North",
  mkLoc "Noida" "Uttar Pradesh" 28.5355 77.3910 "North",
  mkLoc "Jamshedpur" "Jharkhand" 22.8046 86.2029 "East",
  mkLoc "Bhilai Nagar" "Chhattisgarh" 21.1938 81.3509 "Central",
  mkLoc "Cuttack" "Odisha" 20.4625 85.8828 "East",
  mkLoc "Firozabad" "Uttar Pradesh" 27.1592 78.3957 "North",
  mkLoc "Kochi" "Kerala" 9.9312 76.2673 "South",
  mkLoc "Bhavnagar" "Gujarat" 21.7645 72.1519 "West",
  mkLoc "Dehradun" "Uttarakhand" 30.3165 78.0322 "North",
  mkLoc "Durgapur" "West Bengal" 23.5204 87.3119 "East",
  mkLoc "Asansol" "West Bengal" 23.6739 86.9524 "East",
  mkLoc "Rourkela" "Odisha" 22.2604 84.8536 "East",
  mkLoc "Nanded" "Maharashtra" 19.1383 77.3210 "West",
  mkLoc "Kolhapur" "Maharashtra" 16.7050 74.2433 "West",
  mkLoc "Ajmer" "Rajasthan" 26.4499 74.6399 "North",
  mkLoc "Akola" "Maharashtra" 20.7002 77.0082 "West",
  mkLoc "Gulbarga" "Karnataka" 17.3297 76.8343 "South",
  mkLoc "Jamnagar" "Gujarat" 22.4707 70.0577 "West",
  mkLoc "Ujjain" "Madhya Pradesh" 23.1765 75.7885 "Central",
  mkLoc "Loni" "Uttar Pradesh" 28.7333 77.2833 "North",
  mkLoc "Siliguri" "West Bengal" 26.7271 88.3953 "East",
  mkLoc "Jhansi" "Uttar Pradesh" 25.4484 78.5685 "North",
  mkLoc "Ulhasnagar" "Maharashtra" 19.2215 73.1645 "West",
  mkLoc "Jammu" "Jammu and Kashmir" 32.7266 74.8570 "North",
  mkLoc "Sangli-Miraj & Kupwad" "Maharashtra" 16.8524 74.5815 "West",
  mkLoc "Mangalore" "Karnataka" 12.9141 74.8560 "South",
  mkLoc "Erode" "Tamil Nadu" 11.3410 77.7172 "South",
  mkLoc "Belgaum" "Karnataka" 15.8497 74.4977 "South",
  mkLoc "Ambattur" "Tamil Nadu" 13.1143 80.1548 "South",
  mkLoc "Tirunelveli" "Tamil Nadu" 8.7139 77.7567 "South",
  mkLoc "Malegaon" "Maharashtra" 20.5579 74.5287 "West",
  mkLoc "Gaya" "Bihar" 24.7914 85.0002 "East"
]

/-- The three zone buckets produced by `LocationService.getAlertZones`. -/
structure GeoZones where
  immediate : List LocationInfo
  nearby : List LocationInfo
  regional : List LocationInfo
  deriving DecidableEq, Repr

open scoped Classical in
/-- The `cities.forEach` loop of `LocationService.getAlertZones`: each city
is appended to the first band whose upper bound its distance does not
exceed (5, 25, 100 km), and dropped beyond 100 km. -/
noncomputable def zonesAmong (e : Coordinates) : List LocationInfo → GeoZones
  | [] => ⟨[], [], []⟩
  | c :: cs =>
    if calculateDistance e c.coordinates ≤ 5 then
      ⟨c :: (zonesAmong e cs).immediate, (zonesAmong e cs).nearby,
        (zonesAmong e cs).regional⟩
    else if calculateDistance e c.coordinates ≤ 25 then
      ⟨(zonesAmong e cs).immediate, c :: (zonesAmong e cs).nearby,
        (zonesAmong e cs).regional⟩
    else if calculateDistance e c.coordinates ≤ 100 then
      ⟨(zonesAmong e cs).immediate, (zonesAmong e cs).nearby,
        c :: (zonesAmong e cs).regional⟩
    else zonesAmong e cs

/-- `LocationService.getAlertZones`: partition the city catalog into the
three distance bands around the epicenter. -/
noncomputable def getAlertZones (alertCoordinates : Coordinates) : GeoZones :=
  zonesAmong alertCoordinates getMajorIndianCities

/-- `AlertZone` from `enhancedAlertService.ts`: a zone with its assigned
severity, member city names, and radius. -/
structure AlertZone where
  type : ZoneKind
  severity : Severity
  cities : List String
  radius : Nat
  deriving DecidableEq, Repr

/-- `EnhancedAlertService.reduceSeverity`: one degradation step
(`critical`→`warning`, `warning`→`info`, default `info`). -/
def reduceSeverity : Severity → Severity
  | .critical => .warning
  | .warning => .info
  | .info => .info

/-- The body of `EnhancedAlertService.defineAlertZones` after the buckets
have been computed by `LocationService.getAlertZones`: the immediate zone
keeps the original severity, the nearby zone gets the reduced severity,
and a regional zone exists only for `critical` originals, at `info`.
Zones over empty buckets are not materialized. -/
def defineAlertZonesFrom (buckets : GeoZones) (originalSeverity : Severity) :
    List AlertZone :=
  (if 0 < buckets.immediate.length then
    [⟨.immediate, originalSeverity, buckets.immediate.map (·.city), 5⟩]
  else []) ++
  ((if 0 < buckets.nearby.length then
    [⟨.nearby, reduceSeverity originalSeverity, buckets.nearby.map (·.city), 25⟩]
  else []) ++
  (if originalSeverity = .critical ∧ 0 < buckets.regional.length then
    [⟨.regional, .info, buckets.regional.map (·.city), 100⟩]
  else []))

/-- `EnhancedAlertService.defineAlertZones`. -/
noncomputable def defineAlertZones (alertCoordinates : Coordinates)
    (originalSeverity : Severity) : List AlertZone :=
  defineAlertZonesFrom (getAlertZones alertCoordinates) originalSeverity

/-- Subscriber notification preferences (`Subscriber.preferences`). -/
structure SubscriberPrefs where
  language : String
  emailAlerts : Bool
  smsAlerts : Bool
  severityLevels : List String
  alertTypes : List String
  deriving DecidableEq, Repr

/-- `Subscriber` from `enhancedAlertService.ts` (the fields the filtering
pipeline reads). -/
structure Subscriber where
  id : String
  email : Option String
  phone : Option String
  city : String
  state : Option String
  preferences : SubscriberPrefs
  deriving DecidableEq, Repr

/-- The fields of a client-side `Alert` that the subscriber filter reads. -/
structure ClientAlert where
  id : String
  title : String
  description : String
  severity : Severity
  type : String
  location : String
  deriving DecidableEq, Repr

/-- JS string truthiness for optional string fields: `undefined` and the
empty string are falsy, every other string is truthy. -/
def optTruthy : Option String → Bool
  | none => false
  | some s => s != ""

/-- Does `needle` occur at the start of `hay`? (character lists) -/
def charsStart : List Char → List Char → Bool
  | [], _ => true
  | _ :: _, [] => false
  | c :: cs, h :: hs => c == h && charsStart cs hs

/-- JavaScript `hay.includes(needle)` on character lists: contiguous
substring containment. -/
def charsHas : List Char → List Char → Bool
  | [], needle => charsStart needle []
  | h :: hs, needle => charsStart needle (h :: hs) || charsHas hs needle

/-- `a.toLowerCase().includes(b.toLowerCase())` (lower-casing applied per
character). -/
def lcIncludes (a b : String) : Bool :=
  charsHas (a.toList.map Char.toLower) (b.toList.map Char.toLower)

/-- The `zoneSubscribers` filter predicate of
`EnhancedAlertService.createTargetedAlerts`: zone membership by
bidirectional case-insensitive substring match on the city name, then the
severity and alert-type preference checks. -/
def matchesZone (zone : AlertZone) (alert : ClientAlert) (s : Subscriber) :
    Bool :=
  let isInZone := zone.cities.any fun city =>
    lcIncludes s.city city || lcIncludes city s.city
  if !isInZone then false
  else
    s.preferences.severityLevels.contains (sevString zone.severity) &&
      s.preferences.alertTypes.contains alert.type

/-- A recipient record of the edge-function wire format
(`{phone?, email?, language}`). -/
structure Recipient where
  phone : Option String
  email : Option String
  language : String
  deriving DecidableEq, Repr

/-- The `formattedRecipients` mapping of
`EnhancedAlertService.sendLocationBasedNotifications`: each address is
forwarded only when the matching channel opt-in is set. -/
def formatRecipient (s : Subscriber) : Recipient :=
  ⟨if s.preferences.smsAlerts then s.phone else none,
   if s.preferences.emailAlerts then s.email else none,
   s.preferences.language⟩

/-- The truthiness filter `r.email || r.phone` applied to formatted
recipients. -/
def hasContact (r : Recipient) : Bool :=
  optTruthy r.email || optTruthy r.phone

/-- The recipient list the edge function is eventually called with for one
zone: the `createTargetedAlerts` subscriber filter composed with the
`sendLocationBasedNotifications` formatting and contact filter. -/
def zoneRecipients (zone : AlertZone) (alert : ClientAlert)
    (subscribers : List Subscriber) : List Recipient :=
  ((subscribers.filter fun s => matchesZone zone alert s).map
    formatRecipient).filter hasContact

/-- The combined per-subscriber inclusion predicate (zone match, severity
and type preference, and at least one usable contact channel). -/
def includeSubscriber (zone : AlertZone) (alert : ClientAlert)
    (s : Subscriber) : Bool :=
  matchesZone zone alert s && hasContact (formatRecipient s)

/-- Localized `{title, description}` content (`alert.languages` entries). -/
structure LangContent where
  title : String
  description : String
  deriving DecidableEq, Repr

/-- The `alert` object of the edge-function wire format (`AlertRequest`). -/
structure ReqAlert where
  id : String
  title : String
  description : String
  severity : Severity
  type : String
  location : String
  timestamp : String
  source : String
  zone : Option ZoneKind
  radius : Option Nat
  languages : Option (List (String × LangContent))
  deriving DecidableEq, Repr

/-- The edge-function request body. -/
structure AlertRequest where
  recipients : List Recipient
  alert : ReqAlert
  deriving DecidableEq, Repr

/-- `alert.languages && alert.languages[language]`: the localized entry for
a language, when the map exists and has one. -/
def langLookup (alert : ReqAlert) (language : String) : Option LangContent :=
  match alert.languages with
  | none => none
  | some m => m.lookup language

/-- The `localized` selection shared by both message builders: the
language's entry when present, otherwise the alert's base title and
description. -/
def localizedFor (alert : ReqAlert) (language : String) : LangContent :=
  match langLookup alert language with
  | some c => c
  | none => ⟨alert.title, alert.description⟩

/-- `new Date(ts).toLocaleString()`.  Locale-dependent date rendering is
abstracted as the raw timestamp string; no claim depends on its shape. -/
def toLocaleString (ts : String) : String := ts

/-- The `severityEmoji` record of `createEnhancedSMSMessage`. -/
def severityEmoji : Severity → String
  | .critical => "🚨"
  | .warning => "⚠️"
  | .info => "ℹ️"

/-- The `typeEmoji` record: JS property access on a missing key renders as
the string `undefined` in a template literal. -/
def typeEmoji (t : String) : String :=
  if t = "earthquake" then "🌍"
  else if t = "flood" then "🌊"
  else if t = "fire" then "🔥"
  else if t = "storm" then "⛈️"
  else if t = "other" then "📢"
  else "undefined"

/-- The `zonePrefix` record of `createEnhancedSMSMessage`. -/
def zoneTag : ZoneKind → String
  | .immediate => "🎯 IMMEDIATE AREA"
  | .nearby => "📍 NEARBY AREA"
  | .regional => "🗺️ REGIONAL ALERT"

/-- A `${x}` splice of an optional number (`undefined` renders as text). -/
def optNatStr : Option Nat → String
  | some n => toString n
  | none => "undefined"

/-- The `zoneInfo` line of the SMS template. -/
def smsZoneInfo (alert : ReqAlert) : String :=
  match alert.zone with
  | some z => zoneTag z ++ " (" ++ optNatStr alert.radius ++ "km)"
  | none => "DIRECT ALERT"

/-- The zone-specific call-to-action line of the SMS template. -/
def smsCallToAction : Option ZoneKind → String
  | some .immediate => "🚨 TAKE IMMEDIATE ACTION"
  | some .nearby => "⚠️ MONITOR SITUATION"
  | _ => "📢 STAY INFORMED"

/-- The SMS template of `createEnhancedSMSMessage`, with the localized
content made an explicit argument. -/
def smsTemplateCore (alert : ReqAlert) (localized : LangContent) : String :=
  severityEmoji alert.severity ++ " EMERGENCY ALERT\n" ++
  smsZoneInfo alert ++ "\n\n" ++
  typeEmoji alert.type ++ " " ++ localized.title ++ "\n\n" ++
  "📍 Location: " ++ alert.location ++ "\n" ++
  "🕒 Time: " ++ toLocaleString alert.timestamp ++ "\n" ++
  "📡 Source: " ++ alert.source ++ "\n\n" ++
  localized.description ++ "\n\n" ++
  smsCallToAction alert.zone ++ "\n\n" ++
  "Reply STOP to unsubscribe."

/-- `createEnhancedSMSMessage`. -/
def createEnhancedSMSMessage (alert : ReqAlert) (language : String) : String :=
  smsTemplateCore alert (localizedFor alert language)

/-- The `severityColor` record of `createEnhancedEmailMessage`. -/
def severityColor : Severity → String
  | .critical => "#dc2626"
  | .warning => "#f59e0b"
  | .info => "#3b82f6"

/-- The `zoneColors` record of `createEnhancedEmailMessage`. -/
def zoneColorOf : ZoneKind → String
  | .immediate => "#dc2626"
  | .nearby => "#f59e0b"
  | .regional => "#3b82f6"

/-- The `zoneLabels` record of `createEnhancedEmailMessage`. -/
def zoneHeading : ZoneKind → String
  | .immediate => "🎯 IMMEDIATE AREA ALERT"
  | .nearby => "📍 NEARBY AREA WARNING"
  | .regional => "🗺️ REGIONAL INFORMATION"

/-- The email `zoneInfo` value. -/
def emailZoneInfo (alert : ReqAlert) : String :=
  match alert.zone with
  | some z => zoneHeading z
  | none => "DIRECT EMERGENCY ALERT"

/-- The email `zoneColor` value. -/
def emailZoneColor (alert : ReqAlert) : String :=
  match alert.zone with
  | some z => zoneColorOf z
  | none => severityColor alert.severity

/-- The subject-line urgency marker ternary. -/
def emailSubjectTag : Option ZoneKind → String
  | some .immediate => "🚨 IMMEDIATE"
  | some .nearby => "⚠️ NEARBY"
  | _ => "📢 REGIONAL"

/-- The optional Alert Zone row of the email details grid. -/
def emailZoneBlock (alert : ReqAlert) : String :=
  match alert.zone with
  | some z =>
    "
                  <div style=\"display: flex; align-items: center; gap: 10px;\">
                    <span style=\"font-size: 18px;\">🎯</span>
                    <div>
                      <strong style=\"color: #1f2937;\">Alert Zone:</strong>
                      <span style=\"margin-left: 8px; padding: 4px 12px; background: " ++
    emailZoneColor alert ++
    "; color: white; border-radius: 20px; font-size: 12px; font-weight: bold;\">" ++
    (zoneString z).toUpper ++ " (" ++ optNatStr alert.radius ++ "km radius)</span>
                    </div>
                  </div>
                  "
  | none => ""

/-- The Action Required panel background ternary. -/
def emailActionBg : Option ZoneKind → String
  | some .immediate => "#fef2f2"
  | some .nearby => "#fffbeb"
  | _ => "#eff6ff"

/-- The Action Required heading ternary. -/
def emailActionHeading : Option ZoneKind → String
  | some .immediate => "🚨 IMMEDIATE ACTION REQUIRED"
  | some .nearby => "⚠️ MONITOR SITUATION CLOSELY"
  | _ => "📢 STAY INFORMED"

/-- The Action Required paragraph ternary. -/
def emailActionText : Option ZoneKind → String
  | some .immediate =>
    "You are in the immediate impact area. Follow emergency procedures and local authority guidance immediately."
  | some .nearby =>
    "Emergency situation detected near your location. Stay alert and be prepared to take action if conditions change."
  | _ =>
    "Emergency situation in your region. Stay informed through official channels and follow local authority guidance."

/-- An apostrophe character, for the CSS font list. -/
def apos : String := String.mk [Char.ofNat 39]

/-- A built email: `{subject, html}`. -/
structure EmailMessage where
  subject : String
  html : String
  deriving DecidableEq, Repr

/-- The HTML document template of `createEnhancedEmailMessage`, with the
localized content made an explicit argument. -/
def emailHtmlCore (alert : ReqAlert) (language : String)
    (localized : LangContent) : String :=
  "
      <!DOCTYPE html>
      <html>
        <head>
          <meta charset=\"utf-8\">
          <meta name=\"viewport\" content=\"width=device-width, initial-scale=1.0\">
          <title>Emergency Alert</title>
        </head>
        <body style=\"font-family: " ++ apos ++ "Segoe UI" ++ apos ++ ", Tahoma, Geneva, Verdana, sans-serif; line-height: 1.6; color: #333; margin: 0; padding: 0; background: linear-gradient(135deg, #f8fafc 0%, #e2e8f0 100%);\">
          <div style=\"max-width: 600px; margin: 0 auto; background: white; box-shadow: 0 20px 40px rgba(0,0,0,0.1);\">
            <!-- Header -->
            <div style=\"background: " ++ emailZoneColor alert ++ "; color: white; padding: 30px 20px; text-align: center; position: relative; overflow: hidden;\">
              <div style=\"position: absolute; top: 0; left: 0; right: 0; height: 4px; background: linear-gradient(90deg, rgba(255,255,255,0.3) 0%, rgba(255,255,255,0.7) 50%, rgba(255,255,255,0.3) 100%);\"></div>
              <h1 style=\"margin: 0; font-size: 28px; font-weight: bold; text-shadow: 0 2px 4px rgba(0,0,0,0.3);\">🚨 EMERGENCY ALERT</h1>
              <div style=\"margin: 10px 0; padding: 8px 16px; background: rgba(255,255,255,0.2); border-radius: 20px; display: inline-block; font-size: 14px; font-weight: bold;\">
                " ++ emailZoneInfo alert ++ "
              </div>
              <p style=\"margin: 10px 0 0 0; font-size: 20px; font-weight: bold; text-shadow: 0 1px 2px rgba(0,0,0,0.3);\">" ++ localized.title ++ "</p>
            </div>

            <!-- Alert Details -->
            <div style=\"padding: 30px 20px;\">
              <div style=\"background: linear-gradient(135deg, #f8fafc 0%, #e2e8f0 100%); padding: 25px; border-radius: 12px; margin-bottom: 25px; border-left: 5px solid " ++ emailZoneColor alert ++ ";\">
                <div style=\"display: grid; gap: 15px;\">
                  <div style=\"display: flex; align-items: center; gap: 10px;\">
                    <span style=\"font-size: 18px;\">📍</span>
                    <div>
                      <strong style=\"color: #1f2937;\">Location:</strong>
                      <span style=\"margin-left: 8px; color: #4b5563;\">" ++ alert.location ++ "</span>
                    </div>
                  </div>

                  <div style=\"display: flex; align-items: center; gap: 10px;\">
                    <span style=\"font-size: 18px;\">🕒</span>
                    <div>
                      <strong style=\"color: #1f2937;\">Time:</strong>
                      <span style=\"margin-left: 8px; color: #4b5563;\">" ++ toLocaleString alert.timestamp ++ "</span>
                    </div>
                  </div>

                  <div style=\"display: flex; align-items: center; gap: 10px;\">
                    <span style=\"font-size: 18px;\">⚠️</span>
                    <div>
                      <strong style=\"color: #1f2937;\">Severity:</strong>
                      <span style=\"margin-left: 8px; padding: 4px 12px; background: " ++ severityColor alert.severity ++ "; color: white; border-radius: 20px; font-size: 12px; font-weight: bold; text-transform: uppercase;\">" ++ sevString alert.severity ++ "</span>
                    </div>
                  </div>

                  <div style=\"display: flex; align-items: center; gap: 10px;\">
                    <span style=\"font-size: 18px;\">📡</span>
                    <div>
                      <strong style=\"color: #1f2937;\">Source:</strong>
                      <span style=\"margin-left: 8px; color: #4b5563;\">" ++ alert.source ++ "</span>
                    </div>
                  </div>
" ++ emailZoneBlock alert ++ "
                </div>
              </div>

              <!-- Alert Description -->
              <div style=\"margin-bottom: 25px;\">
                <h3 style=\"color: #1f2937; margin-bottom: 15px; font-size: 18px;\">📋 Alert Details:</h3>
                <div style=\"background: white; padding: 20px; border-radius: 8px; border: 1px solid #e5e7eb; line-height: 1.7;\">
                  " ++ localized.description ++ "
                </div>
              </div>

              <!-- Action Required -->
              <div style=\"background: " ++ emailActionBg alert.zone ++ "; border: 2px solid " ++ emailZoneColor alert ++ "; padding: 20px; border-radius: 12px; margin-bottom: 25px;\">
                <h4 style=\"margin: 0 0 10px 0; color: " ++ emailZoneColor alert ++ "; font-size: 16px; font-weight: bold;\">
                  " ++ emailActionHeading alert.zone ++ "
                </h4>
                <p style=\"margin: 0; color: #374151; font-weight: 500;\">
                  " ++ emailActionText alert.zone ++ "
                </p>
              </div>

              <!-- Emergency Contacts -->
              <div style=\"background: #f9fafb; padding: 20px; border-radius: 8px; margin-bottom: 20px;\">
                <h4 style=\"margin: 0 0 15px 0; color: #1f2937; font-size: 16px;\">🆘 Emergency Contacts:</h4>
                <div style=\"display: grid; gap: 8px; font-size: 14px;\">
                  <div><strong>National Emergency:</strong> <a href=\"tel:112\" style=\"color: #dc2626; text-decoration: none;\">112</a></div>
                  <div><strong>Police:</strong> <a href=\"tel:100\" style=\"color: #dc2626; text-decoration: none;\">100</a></div>
                  <div><strong>Fire Brigade:</strong> <a href=\"tel:101\" style=\"color: #dc2626; text-decoration: none;\">101</a></div>
                  <div><strong>Ambulance:</strong> <a href=\"tel:108\" style=\"color: #dc2626; text-decoration: none;\">108</a></div>
                </div>
              </div>
            </div>

            <!-- Footer -->
            <div style=\"background: #f3f4f6; padding: 20px; text-align: center; border-top: 1px solid #e5e7eb;\">
              <div style=\"font-size: 14px; color: #6b7280; margin-bottom: 10px;\">
                <strong>Emergency Alert System</strong> | Real-time disaster monitoring for India
              </div>
              <div style=\"font-size: 12px; color: #9ca3af;\">
                This is an automated emergency notification from verified government sources.<br>
                Language: " ++ language.toUpper ++ " | Alert ID: " ++ alert.id ++ "
              </div>
            </div>
          </div>
        </body>
      </html>
    "

/-- The subject and HTML of `createEnhancedEmailMessage`, with the
localized content made an explicit argument. -/
def emailTemplateCore (alert : ReqAlert) (language : String)
    (localized : LangContent) : EmailMessage :=
  ⟨emailSubjectTag alert.zone ++ " ALERT: " ++ localized.title,
   emailHtmlCore alert language localized⟩

/-- `createEnhancedEmailMessage`. -/
def createEnhancedEmailMessage (alert : ReqAlert) (language : String) :
    EmailMessage :=
  emailTemplateCore alert language (localizedFor alert language)

/-- The environment variables read at the top of the edge-function handler
(`Deno.env.get` returns a string or `undefined`). -/
structure Config where
  twilioAccountSid : Option String
  twilioAuthToken : Option String
  twilioPhoneNumber : Option String
  smtpHost : Option String
  smtpUser : Option String
  smtpPass : Option String
  fromEmail : Option String
  smtpPort : Option String
  deriving DecidableEq, Repr

/-- The `missingTwilio` list, in the push order of the source. -/
def missingTwilio (cfg : Config) : List String :=
  (if !optTruthy cfg.twilioAccountSid then ["TWILIO_ACCOUNT_SID"] else []) ++
  ((if !optTruthy cfg.twilioAuthToken then ["TWILIO_AUTH_TOKEN"] else []) ++
  (if !optTruthy cfg.twilioPhoneNumber then ["TWILIO_PHONE_NUMBER"] else []))

/-- `smsEnabled`: the SMS service-availability gate. -/
def smsEnabled (cfg : Config) : Bool :=
  (missingTwilio cfg).length == 0

/-- The `missingSmtp` list, in the push order of the source
(host, from-address, user, password). -/
def missingSmtp (cfg : Config) : List String :=
  (if !optTruthy cfg.smtpHost then ["SMTP_HOST"] else []) ++
  ((if !optTruthy cfg.fromEmail then ["FROM_EMAIL"] else []) ++
  ((if !optTruthy cfg.smtpUser then ["SMTP_USER"] else []) ++
  (if !optTruthy cfg.smtpPass then ["SMTP_PASS"] else [])))

/-- `emailEnabled`: the email service-availability gate. -/
def emailEnabled (cfg : Config) : Bool :=
  (missingSmtp cfg).length == 0

/-- Delivery channel. -/
inductive Channel
  | sms
  | email
  deriving DecidableEq, Repr

/-- One entry of `deliveryMeta`, index-aligned with `deliveryTasks`. -/
structure TaskMeta where
  channel : Channel
  recipient : String
  language : String
  deriving DecidableEq, Repr

/-- One entry of the report's `errors` array.  Early configuration errors
carry no `language` field; transport errors spread the task's metadata and
therefore do. -/
structure ErrEntry where
  channel : Channel
  recipient : String
  language : Option String
  reason : String
  deriving DecidableEq, Repr

/-- The early-failure reason for a gated SMS task. -/
def smsGateReason (cfg : Config) : String :=
  "SMS service not configured: " ++ String.intercalate ", " (missingTwilio cfg)

/-- The early-failure reason for a gated email task. -/
def emailGateReason (cfg : Config) : String :=
  "Email service not configured: " ++ String.intercalate ", " (missingSmtp cfg)

/-- `recipient.language || 'en'`. -/
def langOf (r : Recipient) : String :=
  if r.language == "" then "en" else r.language

/-- The SMS `if / else if` block of the per-recipient loop: an issued task
when the phone is provided and the gate is open, an early error when the
phone is provided and the gate is closed, nothing otherwise. -/
def smsPart (cfg : Config) (r : Recipient) : List TaskMeta × List ErrEntry :=
  if optTruthy r.phone && smsEnabled cfg then
    ([⟨.sms, r.phone.getD "", langOf r⟩], [])
  else if optTruthy r.phone && !smsEnabled cfg then
    ([], [⟨.sms, r.phone.getD "", none, smsGateReason cfg⟩])
  else ([], [])

/-- The email `if / else if` block of the per-recipient loop. -/
def emailPart (cfg : Config) (r : Recipient) : List TaskMeta × List ErrEntry :=
  if optTruthy r.email && emailEnabled cfg then
    ([⟨.email, r.email.getD "", langOf r⟩], [])
  else if optTruthy r.email && !emailEnabled cfg then
    ([], [⟨.email, r.email.getD "", none, emailGateReason cfg⟩])
  else ([], [])

/-- The `for (const recipient of recipients)` loop: accumulates
`deliveryTasks`/`deliveryMeta` (first component) and `earlyErrors` (second
component), SMS before email for each recipient, recipients in order. -/
def enumTasks (cfg : Config) : List Recipient → List TaskMeta × List ErrEntry
  | [] => ([], [])
  | r :: rest =>
    ((smsPart cfg r).1 ++ ((emailPart cfg r).1 ++ (enumTasks cfg rest).1),
     (smsPart cfg r).2 ++ ((emailPart cfg r).2 ++ (enumTasks cfg rest).2))

/-- A transport response as seen by `fetch` (`ok`, `status`, body text). -/
structure HttpResponse where
  ok : Bool
  status : Nat
  body : String
  deriving DecidableEq, Repr

/-- The fulfilled value of a send operation. -/
structure Receipt where
  type : String
  recipient : String
  status : String
  language : String
  deriving DecidableEq, Repr

/-- `sendEnhancedSMS`: builds the SMS body, posts it to the provider, and
rejects with the provider status and body on a non-2xx response.  The
transport response is an explicit argument (the network oracle). -/
def sendEnhancedSMS (response : HttpResponse) (phone : String)
    (alert : ReqAlert) (language : String)
    (_accountSid _authToken _fromNumber : String) : Except String Receipt :=
  let _smsBody := createEnhancedSMSMessage alert language
  if !response.ok then
    .error ("SMS delivery failed: " ++ toString response.status ++ " " ++
      response.body)
  else
    .ok ⟨"SMS", phone, "delivered", language⟩

/-- `sendEnhancedEmail`: builds the email content, logs, waits a simulated
delay, and unconditionally resolves with status `delivered` — no network
call occurs in the source. -/
def sendEnhancedEmail (email : String) (alert : ReqAlert)
    (language : String) : Except String Receipt :=
  let _emailContent := createEnhancedEmailMessage alert language
  .ok ⟨"Email", email, "delivered", language⟩

/-- Settle one issued task: SMS against its transport response, email via
the simulated sender. -/
def sendTask (cfg : Config) (alert : ReqAlert) (response : HttpResponse)
    (m : TaskMeta) : Except String Receipt :=
  match m.channel with
  | .sms =>
    sendEnhancedSMS response m.recipient alert m.language
      (cfg.twilioAccountSid.getD "") (cfg.twilioAuthToken.getD "")
      (cfg.twilioPhoneNumber.getD "")
  | .email => sendEnhancedEmail m.recipient alert m.language

/-- The settled results of the issued tasks, index-aligned with the task
list as `Promise.allSettled` guarantees; task number `k` is settled against
transport response `net k`. -/
def runResultsFrom (cfg : Config) (alert : ReqAlert)
    (net : Nat → HttpResponse) : Nat → List TaskMeta →
    List (Except String Receipt)
  | _, [] => []
  | k, m :: ms =>
    sendTask cfg alert (net k) m :: runResultsFrom cfg alert net (k + 1) ms

/-- The `deliveryErrors` computation: rejected results keep their
index-aligned metadata and the rejection reason, fulfilled ones are
dropped. -/
def transportErrorsOf : List TaskMeta → List (Except String Receipt) →
    List ErrEntry
  | m :: ms, r :: rs =>
    (match r with
     | .ok _ => transportErrorsOf ms rs
     | .error reason =>
       ⟨m.channel, m.recipient, some m.language, reason⟩ ::
         transportErrorsOf ms rs)
  | _, _ => []

/-- `successful`: the number of fulfilled results. -/
def countFulfilled : List (Except String Receipt) → Nat
  | [] => 0
  | .ok _ :: rs => countFulfilled rs + 1
  | .error _ :: rs => countFulfilled rs

/-- The 200-response body of the handler. -/
structure Report where
  success : Bool
  sent : Nat
  failed : Nat
  errors : List ErrEntry
  zone : String
  radius : Option Nat
  configSms : Bool
  configEmail : Bool
  message : String
  deriving DecidableEq, Repr

/-- `alert.zone || 'direct'`. -/
def zoneFieldStr (z : Option ZoneKind) : String :=
  match z with
  | some zk => zoneString zk
  | none => "direct"

/-- `alert.zone || 'Direct'` as used in the summary message. -/
def zoneMsgStr (z : Option ZoneKind) : String :=
  match z with
  | some zk => zoneString zk
  | none => "Direct"

/-- The aggregation step shared by the run models: given the enumerated
tasks, the early errors and the settled results, build the report. -/
def aggregateReport (cfg : Config) (alert : ReqAlert)
    (tasks : List TaskMeta) (earlyErrors : List ErrEntry)
    (results : List (Except String Receipt)) : Report :=
  let deliveryErrors := transportErrorsOf tasks results
  let allErrors := earlyErrors ++ deliveryErrors
  let successful := countFulfilled results
  let failed := allErrors.length
  { success := failed == 0
    sent := successful
    failed := failed
    errors := allErrors
    zone := zoneFieldStr alert.zone
    radius := alert.radius
    configSms := smsEnabled cfg
    configEmail := emailEnabled cfg
    message := zoneMsgStr alert.zone ++ " zone alert: " ++
      toString successful ++ " delivered, " ++ toString failed ++ " failed" }

/-- One distribution run of the handler body on a parsed request: enumerate
tasks, settle them all, and aggregate the report. -/
def runReport (cfg : Config) (alert : ReqAlert)
    (recipients : List Recipient) (net : Nat → HttpResponse) : Report :=
  let tasks := (enumTasks cfg recipients).1
  let earlyErrors := (enumTasks cfg recipients).2
  aggregateReport cfg alert tasks earlyErrors
    (runResultsFrom cfg alert net 0 tasks)

/-- The handler's HTTP response: a 200 report, or the 500 failure body
`{success: false, error, sent: 0, failed: 0}`. -/
inductive ServeResponse
  | report (status : Nat) (r : Report)
  | failure (status : Nat) (success : Bool) (error : String)
      (sent failed : Nat)
  deriving DecidableEq, Repr

/-- The `serve` handler: a request that fails to parse (modelled as `none`)
takes the catch branch and returns the 500 body; a parsed request is
processed and always answered with status 200. -/
def serveHandler (cfg : Config) (req : Option AlertRequest)
    (parseError : String) (net : Nat → HttpResponse) : ServeResponse :=
  match req with
  | none => .failure 500 false parseError 0 0
  | some q => .report 200 (runReport cfg q.alert q.recipients net)

/-- Number of tasks a run enumerates: one per recipient per provided
non-empty channel address, whether the channel is enabled or gated. -/
def attemptedCount : List Recipient → Nat
  | [] => 0
  | r :: rest =>
    (if optTruthy r.phone then 1 else 0) +
      ((if optTruthy r.email then 1 else 0) + attemptedCount rest)

/-- The gated (early configuration) failures of a run, in task-enumeration
order: recipients in submission order, SMS before email per recipient. -/
def gatedFailures (cfg : Config) : List Recipient → List ErrEntry
  | [] => []
  | r :: rest =>
    (smsPart cfg r).2 ++ ((emailPart cfg r).2 ++ gatedFailures cfg rest)

/-- The issued tasks of one recipient (SMS before email). -/
def issuedOf (cfg : Config) (r : Recipient) : List TaskMeta :=
  (smsPart cfg r).1 ++ (emailPart cfg r).1

/-- The transport failures of a run, in task-enumeration order, threading
the global issued-task index `k` through the recipients. -/
def transpFailures (cfg : Config) (alert : ReqAlert)
    (net : Nat → HttpResponse) : Nat → List Recipient → List ErrEntry
  | _, [] => []
  | k, r :: rest =>
    transportErrorsOf (issuedOf cfg r)
        (runResultsFrom cfg alert net k (issuedOf cfg r)) ++
      transpFailures cfg alert net (k + (issuedOf cfg r).length) rest

/-- The SMS slot of one recipient read in task-enumeration order: the
failure entry it contributes (gated, or rejected in transport), plus the
next issued-task index. -/
def smsSlot (cfg : Config) (alert : ReqAlert) (net : Nat → HttpResponse)
    (k : Nat) (r : Recipient) : List ErrEntry × Nat :=
  if optTruthy r.phone && smsEnabled cfg then
    (match sendTask cfg alert (net k) ⟨.sms, r.phone.getD "", langOf r⟩ with
     | .ok _ => []
     | .error reason => [⟨.sms, r.phone.getD "", some (langOf r), reason⟩],
     k + 1)
  else if optTruthy r.phone && !smsEnabled cfg then
    ([⟨.sms, r.phone.getD "", none, smsGateReason cfg⟩], k)
  else ([], k)

/-- The email slot of one recipient read in task-enumeration order. -/
def emailSlot (cfg : Config) (alert : ReqAlert) (net : Nat → HttpResponse)
    (k : Nat) (r : Recipient) : List ErrEntry × Nat :=
  if optTruthy r.email && emailEnabled cfg then
    (match sendTask cfg alert (net k) ⟨.email, r.email.getD "", langOf r⟩ with
     | .ok _ => []
     | .error reason => [⟨.email, r.email.getD "", some (langOf r), reason⟩],
     k + 1)
  else if optTruthy r.email && !emailEnabled cfg then
    ([⟨.email, r.email.getD "", none, emailGateReason cfg⟩], k)
  else ([], k)

/-- All failed tasks of a run in pure task-enumeration order (gated and
rejected interleaved by enumeration position) — the order the claim under
test ascribes to the report's `errors` sequence. -/
def enumOrderFailures (cfg : Config) (alert : ReqAlert)
    (net : Nat → HttpResponse) : Nat → List Recipient → List ErrEntry
  | _, [] => []
  | k, r :: rest =>
    (smsSlot cfg alert net k r).1 ++
      ((emailSlot cfg alert net (smsSlot cfg alert net k r).2 r).1 ++
        enumOrderFailures cfg alert net
          (emailSlot cfg alert net (smsSlot cfg alert net k r).2 r).2 rest)

/-- A not-yet-settled placeholder; never observed for a completion schedule
that is a permutation of the task indices. -/
def pendingResult : Except String Receipt := .error "pending"

/-- Settle the task at global index `i` (out-of-range indices stay
pending). -/
def settleAt (cfg : Config) (alert : ReqAlert) (net : Nat → HttpResponse)
    (tasks : List TaskMeta) (i : Nat) : Except String Receipt :=
  match tasks.get? i with
  | some m => sendTask cfg alert (net i) m
  | none => pendingResult

/-- The settle events of a run in wall-clock completion order: the schedule
lists task indices in the order the sends finish. -/
def completionEvents (cfg : Config) (alert : ReqAlert)
    (net : Nat → HttpResponse) (tasks : List TaskMeta)
    (sched : List Nat) : List (Nat × Except String Receipt) :=
  sched.map fun i => (i, settleAt cfg alert net tasks i)

/-- The `Promise.allSettled` contract: whatever order the operations
complete in, the results array is read back index-aligned with the tasks. -/
def allSettledModel (n : Nat)
    (completed : List (Nat × Except String Receipt)) :
    List (Except String Receipt) :=
  (List.range n).map fun j =>
    ((completed.find? fun p => p.1 == j).map Prod.snd).getD pendingResult

/-- A distribution run with an explicit completion schedule: identical to
`runReport` except that the settled results are reassembled from the
completion-ordered events. -/
def runReportScheduled (cfg : Config) (alert : ReqAlert)
    (recipients : List Recipient) (net : Nat → HttpResponse)
    (sched : List Nat) : Report :=
  let tasks := (enumTasks cfg recipients).1
  let earlyErrors := (enumTasks cfg recipients).2
  aggregateReport cfg alert tasks earlyErrors
    (allSettledModel tasks.length
      (completionEvents cfg alert net tasks sched))

/-- A fully configured environment (both gates open). -/
def cfgAll : Config :=
  ⟨some "sid", some "tok", some "+100", some "smtp.example", some "user",
   some "pass", some "alerts@example", some "587"⟩

/-- An environment with the Twilio account identifier missing (SMS gate
closed). -/
def cfgNoSid : Config :=
  ⟨none, some "tok", some "+100", some "smtp.example", some "user",
   some "pass", some "alerts@example", some "587"⟩

/-- An environment with the SMTP host missing (email gate closed). -/
def cfgNoHost : Config :=
  ⟨some "sid", some "tok", some "+100", none, some "user",
   some "pass", some "alerts@example", some "587"⟩

/-- A transport oracle whose every response is a 500 rejection. -/
def netFail : Nat → HttpResponse := fun _ => ⟨false, 500, "boom"⟩

/-- A transport oracle whose every response is a 200 success. -/
def netOk : Nat → HttpResponse := fun _ => ⟨true, 200, "OK"⟩

/-- A sample wire alert without a localization map. -/
def alertPlain : ReqAlert :=
  ⟨"a1", "Quake", "Strong quake", .critical, "earthquake", "Chennai",
   "2025-06-01T10:00:00Z", "IMD", some .immediate, some 5, none⟩

/-- A sample wire alert with one Tamil localization entry. -/
def alertWithTa : ReqAlert :=
  ⟨"a2", "Quake", "Strong quake", .critical, "earthquake", "Chennai",
   "2025-06-01T10:00:00Z", "IMD", some .nearby, some 25,
   some [("ta", ⟨"T-title", "T-desc"⟩)]⟩

/-- A recipient with only a phone number. -/
def recipPhone : Recipient := ⟨some "p1", none, "en"⟩

/-- A recipient with only an email address. -/
def recipEmail : Recipient := ⟨none, some "e1", "en"⟩

/-- A recipient with both addresses. -/
def recipBoth : Recipient := ⟨some "p2", some "e2", "en"⟩

/-- Concrete zone buckets for exercising the severity policy. -/
def bucketsSample : GeoZones :=
  ⟨[mkLoc "Alpha" "S1" 0 0 "R1"], [mkLoc "Beta" "S2" 1 1 "R2"],
   [mkLoc "Gamma" "S3" 2 2 "R3"]⟩

lemma length_runResultsFrom (cfg : Config) (alert : ReqAlert)
    (net : Nat → HttpResponse) :
    ∀ (ts : List TaskMeta) (k : Nat),
      (runResultsFrom cfg alert net k ts).length = ts.length := by
  intro ts
  induction ts with
  | nil => intro k; simp [runResultsFrom]
  | cons m ms ih => intro k; simp [runResultsFrom, ih]

lemma runResultsFrom_append (cfg : Config) (alert : ReqAlert)
    (net : Nat → HttpResponse) :
    ∀ (ts us : List TaskMeta) (k : Nat),
      runResultsFrom cfg alert net k (ts ++ us) =
        runResultsFrom cfg alert net k ts ++
          runResultsFrom cfg alert net (k + ts.length) us := by
  intro ts
  induction ts with
  | nil => intro us k; simp [runResultsFrom]
  | cons m ms ih =>
    intro us k
    simp only [List.cons_append, runResultsFrom, List.length_cons,
      List.append_eq]
    rw [ih us (k + 1)]
    have h : k + (ms.length + 1) = k + 1 + ms.length := by omega
    rw [h]

lemma transportErrorsOf_append :
    ∀ (ts us : List TaskMeta) (as bs : List (Except String Receipt)),
      as.length = ts.length →
      transportErrorsOf (ts ++ us) (as ++ bs) =
        transportErrorsOf ts as ++ transportErrorsOf us bs := by
  intro ts
  induction ts with
  | nil =>
    intro us as bs h
    have hnil : as = [] := List.length_eq_zero.1 h
    subst hnil
    rfl
  | cons m ms ih =>
    intro us as bs h
    match as with
    | [] => simp at h
    | a :: as' =>
      simp only [List.length_cons, Nat.succ.injEq] at h
      cases a with
      | ok v => simpa [transportErrorsOf] using ih us as' bs h
      | error e => simpa [transportErrorsOf] using ih us as' bs h

lemma countFulfilled_add_errors :
    ∀ (ts : List TaskMeta) (rs : List (Except String Receipt)),
      rs.length = ts.length →
      countFulfilled rs + (transportErrorsOf ts rs).length = ts.length := by
  intro ts
  induction ts with
  | nil =>
    intro rs h
    have : rs = [] := List.length_eq_zero.1 h
    simp [this, countFulfilled, transportErrorsOf]
  | cons m ms ih =>
    intro rs h
    match rs with
    | [] => simp at h
    | r :: rs' =>
      simp only [List.length_cons, Nat.succ.injEq] at h
      cases r with
      | ok v =>
        have := ih rs' h
        simp only [countFulfilled, transportErrorsOf, List.length_cons]
        omega
      | error e =>
        have := ih rs' h
        simp only [countFulfilled, transportErrorsOf, List.length_cons]
        omega

lemma enumTasks_fst_cons (cfg : Config) (r : Recipient)
    (rest : List Recipient) :
    (enumTasks cfg (r :: rest)).1 = issuedOf cfg r ++ (enumTasks cfg rest).1 := by
  simp [enumTasks, issuedOf, List.append_assoc]

lemma enumTasks_snd_eq_gated (cfg : Config) :
    ∀ rs : List Recipient, (enumTasks cfg rs).2 = gatedFailures cfg rs := by
  intro rs
  induction rs with
  | nil => rfl
  | cons r rest ih => simp [enumTasks, gatedFailures, ih]

lemma errors_split (cfg : Config) (alert : ReqAlert)
    (net : Nat → HttpResponse) :
    ∀ (rs : List Recipient) (k : Nat),
      transportErrorsOf (enumTasks cfg rs).1
          (runResultsFrom cfg alert net k (enumTasks cfg rs).1) =
        transpFailures cfg alert net k rs := by
  intro rs
  induction rs with
  | nil => intro k; rfl
  | cons r rest ih =>
    intro k
    rw [enumTasks_fst_cons, runResultsFrom_append, transportErrorsOf_append,
      transpFailures]
    · rw [ih]
    · exact length_runResultsFrom cfg alert net _ k

lemma smsPart_length (cfg : Config) (r : Recipient) :
    (smsPart cfg r).1.length + (smsPart cfg r).2.length =
      if optTruthy r.phone then 1 else 0 := by
  rcases hp : optTruthy r.phone <;> rcases he : smsEnabled cfg <;>
    simp [smsPart, hp, he]

lemma emailPart_length (cfg : Config) (r : Recipient) :
    (emailPart cfg r).1.length + (emailPart cfg r).2.length =
      if optTruthy r.email then 1 else 0 := by
  rcases hp : optTruthy r.email <;> rcases he : emailEnabled cfg <;>
    simp [emailPart, hp, he]

lemma enumTasks_length (cfg : Config) :
    ∀ rs : List Recipient,
      (enumTasks cfg rs).1.length + (enumTasks cfg rs).2.length =
        attemptedCount rs := by
  intro rs
  induction rs with
  | nil => rfl
  | cons r rest ih =>
    have hs := smsPart_length cfg r
    have he := emailPart_length cfg r
    simp only [enumTasks, List.length_append, attemptedCount]
    omega

lemma runReport_errors (cfg : Config) (alert : ReqAlert)
    (recipients : List Recipient) (net : Nat → HttpResponse) :
    (runReport cfg alert recipients net).errors =
      gatedFailures cfg recipients ++
        transpFailures cfg alert net 0 recipients := by
  simp only [runReport, aggregateReport]
  rw [enumTasks_snd_eq_gated, errors_split]

lemma runReport_failed (cfg : Config) (alert : ReqAlert)
    (recipients : List Recipient) (net : Nat → HttpResponse) :
    (runReport cfg alert recipients net).failed =
      (runReport cfg alert recipients net).errors.length := by
  rfl

lemma runReport_count (cfg : Config) (alert : ReqAlert)
    (recipients : List Recipient) (net : Nat → HttpResponse) :
    (runReport cfg alert recipients net).sent +
        (runReport cfg alert recipients net).failed =
      attemptedCount recipients := by
  simp only [runReport, aggregateReport, List.length_append]
  have h1 := countFulfilled_add_errors (enumTasks cfg recipients).1
    (runResultsFrom cfg alert net 0 (enumTasks cfg recipients).1)
    (length_runResultsFrom cfg alert net _ 0)
  have h2 := enumTasks_length cfg recipients
  omega

lemma sendTask_email_ok (cfg : Config) (alert : ReqAlert)
    (resp : HttpResponse) (m : TaskMeta) (h : m.channel = .email) :
    sendTask cfg alert resp m =
      .ok ⟨"Email", m.recipient, "delivered", m.language⟩ := by
  unfold sendTask
  rw [h]
  rfl

lemma transp_channel_sms (cfg : Config) (alert : ReqAlert)
    (net : Nat → HttpResponse) :
    ∀ (ts : List TaskMeta) (k : Nat) (e : ErrEntry),
      e ∈ transportErrorsOf ts (runResultsFrom cfg alert net k ts) →
        e.channel = .sms := by
  intro ts
  induction ts with
  | nil => intro k e h; simp [runResultsFrom, transportErrorsOf] at h
  | cons m ms ih =>
    intro k e h
    rw [runResultsFrom] at h
    rcases hc : m.channel with _ | _
    · rcases hr : sendTask cfg alert (net k) m with reason | v
      · rw [hr] at h
        simp only [transportErrorsOf, List.mem_cons] at h
        rcases h with h | h
        · rw [h]; exact hc
        · exact ih (k + 1) e h
      · rw [hr] at h
        exact ih (k + 1) e (by simpa [transportErrorsOf] using h)
    · rw [sendTask_email_ok cfg alert (net k) m hc] at h
      exact ih (k + 1) e (by simpa [transportErrorsOf] using h)

lemma gated_channel_sms (cfg : Config) (hmail : emailEnabled cfg = true) :
    ∀ (rs : List Recipient) (e : ErrEntry),
      e ∈ gatedFailures cfg rs → e.channel = .sms := by
  intro rs
  induction rs with
  | nil => intro e h; simp [gatedFailures] at h
  | cons r rest ih =>
    intro e h
    simp only [gatedFailures, List.mem_append] at h
    rcases h with h | h | h
    · unfold smsPart at h
      split_ifs at h <;> simp_all
    · unfold emailPart at h
      split_ifs at h with h1 h2 <;> simp_all
    · exact ih e h

lemma gated_no_tasks_sms (cfg : Config) (hsms : smsEnabled cfg = false) :
    ∀ (rs : List Recipient) (m : TaskMeta),
      m ∈ (enumTasks cfg rs).1 → m.channel ≠ .sms := by
  intro rs
  induction rs with
  | nil => intro m h; simp [enumTasks] at h
  | cons r rest ih =>
    intro m h
    simp only [enumTasks, List.mem_append] at h
    rcases h with h | h | h
    · unfold smsPart at h
      split_ifs at h <;> simp_all
    · unfold emailPart at h
      split_ifs at h <;> simp_all
    · exact ih m h

lemma gated_no_tasks_email (cfg : Config) (hmail : emailEnabled cfg = false) :
    ∀ (rs : List Recipient) (m : TaskMeta),
      m ∈ (enumTasks cfg rs).1 → m.channel ≠ .email := by
  intro rs
  induction rs with
  | nil => intro m h; simp [enumTasks] at h
  | cons r rest ih =>
    intro m h
    simp only [enumTasks, List.mem_append] at h
    rcases h with h | h | h
    · unfold smsPart at h
      split_ifs at h <;> simp_all
    · unfold emailPart at h
      split_ifs at h <;> simp_all
    · exact ih m h

lemma gated_sms_mem (cfg : Config) (hsms : smsEnabled cfg = false) :
    ∀ (rs : List Recipient) (r : Recipient), r ∈ rs →
      optTruthy r.phone = true →
      (⟨.sms, r.phone.getD "", none, smsGateReason cfg⟩ : ErrEntry) ∈
        gatedFailures cfg rs := by
  intro rs
  induction rs with
  | nil => intro r h; simp at h
  | cons x rest ih =>
    intro r h hp
    simp only [List.mem_cons] at h
    simp only [gatedFailures, List.mem_append]
    rcases h with rfl | h
    · left
      unfold smsPart
      simp [hp, hsms]
    · right; right; exact ih r h hp

lemma gated_email_mem (cfg : Config) (hmail : emailEnabled cfg = false) :
    ∀ (rs : List Recipient) (r : Recipient), r ∈ rs →
      optTruthy r.email = true →
      (⟨.email, r.email.getD "", none, emailGateReason cfg⟩ : ErrEntry) ∈
        gatedFailures cfg rs := by
  intro rs
  induction rs with
  | nil => intro r h; simp at h
  | cons x rest ih =>
    intro r h hp
    simp only [List.mem_cons] at h
    simp only [gatedFailures, List.mem_append]
    rcases h with rfl | h
    · right; left
      unfold emailPart
      simp [hp, hmail]
    · right; right; exact ih r h hp

lemma find_mapped_self (f : Nat → Except String Receipt) :
    ∀ (l : List Nat) (j : Nat), j ∈ l →
      ((l.map fun i => (i, f i)).find? fun p => p.1 == j) = some (j, f j) := by
  intro l
  induction l with
  | nil => intro j h; simp at h
  | cons i t ih =>
    intro j h
    simp only [List.mem_cons] at h
    by_cases hij : i = j
    · subst hij
      simp [List.find?]
    · rcases h with rfl | h
      · exact absurd rfl hij
      · have : (i == j) = false := by simp [hij]
        simp only [List.map_cons, List.find?, this]
        exact ih j h

lemma range_settle (cfg : Config) (alert : ReqAlert)
    (net : Nat → HttpResponse) :
    ∀ (ts : List TaskMeta) (k : Nat),
      ((List.range ts.length).map fun j =>
        match ts.get? j with
        | some m => sendTask cfg alert (net (k + j)) m
        | none => pendingResult) = runResultsFrom cfg alert net k ts := by
  intro ts
  induction ts with
  | nil => intro k; simp [runResultsFrom]
  | cons m ms ih =>
    intro k
    rw [List.length_cons, List.range_succ_eq_map]
    simp only [List.map_cons, List.map_map, List.get?_cons_zero,
      Function.comp, List.get?_cons_succ]
    rw [runResultsFrom]
    congr 1
    rw [← ih (k + 1)]
    apply List.map_congr_left
    intro j _
    simp only [Function.comp_apply, List.get?_cons_succ]
    have h : k + (j + 1) = k + 1 + j := by omega
    rw [h]

lemma allSettled_of_perm (cfg : Config) (alert : ReqAlert)
    (net : Nat → HttpResponse) (ts : List TaskMeta) (sched : List Nat)
    (h : List.Perm sched (List.range ts.length)) :
    allSettledModel ts.length (completionEvents cfg alert net ts sched) =
      runResultsFrom cfg alert net 0 ts := by
  unfold allSettledModel completionEvents
  rw [← range_settle cfg alert net ts 0]
  apply List.map_congr_left
  intro j hj
  have hmem : j ∈ sched := h.mem_iff.2 hj
  rw [show (sched.map fun i => (i, settleAt cfg alert net ts i)) =
    (sched.map fun i => (i, (fun x => settleAt cfg alert net ts x) i)) from rfl]
  rw [find_mapped_self (fun x => settleAt cfg alert net ts x) sched j hmem]
  simp [settleAt]

lemma runReportScheduled_eq (cfg : Config) (alert : ReqAlert)
    (recipients : List Recipient) (net : Nat → HttpResponse)
    (sched : List Nat)
    (h : List.Perm sched (List.range (enumTasks cfg recipients).1.length)) :
    runReportScheduled cfg alert recipients net sched =
      runReport cfg alert recipients net := by
  simp only [runReportScheduled, runReport]
  rw [allSettled_of_perm cfg alert net _ sched h]

set_option maxHeartbeats 1000000 in
lemma zonesAmong_mem (e : Coordinates) :
    ∀ (cities : List LocationInfo) (c : LocationInfo),
      (c ∈ (zonesAmong e cities).immediate ↔
        c ∈ cities ∧ calculateDistance e c.coordinates ≤ 5)
      ∧ (c ∈ (zonesAmong e cities).nearby ↔
        c ∈ cities ∧ ¬ calculateDistance e c.coordinates ≤ 5 ∧
          calculateDistance e c.coordinates ≤ 25)
      ∧ (c ∈ (zonesAmong e cities).regional ↔
        c ∈ cities ∧ ¬ calculateDistance e c.coordinates ≤ 5 ∧
          ¬ calculateDistance e c.coordinates ≤ 25 ∧
          calculateDistance e c.coordinates ≤ 100) := by
  intro cities
  induction cities with
  | nil => intro c; simp [zonesAmong]
  | cons hd tl ih =>
    intro c
    obtain ⟨ih1, ih2, ih3⟩ := ih c
    simp only [zonesAmong]
    split_ifs with h1 h2 h3
    · refine ⟨?_, ?_, ?_⟩
      · simp only [List.mem_cons]
        rw [ih1]
        constructor
        · rintro (rfl | ⟨ha, hb⟩)
          · exact ⟨Or.inl rfl, h1⟩
          · exact ⟨Or.inr ha, hb⟩
        · rintro ⟨rfl | ha, hb⟩
          · exact Or.inl rfl
          · exact Or.inr ⟨ha, hb⟩
      · simp only [List.mem_cons]
        rw [ih2]
        constructor
        · rintro ⟨ha, hb⟩; exact ⟨Or.inr ha, hb⟩
        · rintro ⟨rfl | ha, hb⟩
          · exact absurd h1 hb.1
          · exact ⟨ha, hb⟩
      · simp only [List.mem_cons]
        rw [ih3]
        constructor
        · rintro ⟨ha, hb⟩; exact ⟨Or.inr ha, hb⟩
        · rintro ⟨rfl | ha, hb⟩
          · exact absurd h1 hb.1
          · exact ⟨ha, hb⟩
    · refine ⟨?_, ?_, ?_⟩
      · simp only [List.mem_cons]
        rw [ih1]
        constructor
        · rintro ⟨ha, hb⟩; exact ⟨Or.inr ha, hb⟩
        · rintro ⟨rfl | ha, hb⟩
          · exact absurd hb h1
          · exact ⟨ha, hb⟩
      · simp only [List.mem_cons]
        rw [ih2]
        constructor
        · rintro (rfl | ⟨ha, hb⟩)
          · exact ⟨Or.inl rfl, h1, h2⟩
          · exact ⟨Or.inr ha, hb⟩
        · rintro ⟨rfl | ha, hb⟩
          · exact Or.inl rfl
          · exact Or.inr ⟨ha, hb⟩
      · simp only [List.mem_cons]
        rw [ih3]
        constructor
        · rintro ⟨ha, hb⟩; exact ⟨Or.inr ha, hb⟩
        · rintro ⟨rfl | ha, hb⟩
          · exact absurd h2 hb.2.1
          · exact ⟨ha, hb⟩
    · refine ⟨?_, ?_, ?_⟩
      · simp only [List.mem_cons]
        rw [ih1]
        constructor
        · rintro ⟨ha, hb⟩; exact ⟨Or.inr ha, hb⟩
        · rintro ⟨rfl | ha, hb⟩
          · exact absurd hb h1
          · exact ⟨ha, hb⟩
      · simp only [List.mem_cons]
        rw [ih2]
        constructor
        · rintro ⟨ha, hb⟩; exact ⟨Or.inr ha, hb⟩
        · rintro ⟨rfl | ha, hb⟩
          · exact absurd hb.2 h2
          · exact ⟨ha, hb⟩
      · simp only [List.mem_cons]
        rw [ih3]
        constructor
        · rintro (rfl | ⟨ha, hb⟩)
          · exact ⟨Or.inl rfl, h1, h2, h3⟩
          · exact ⟨Or.inr ha, hb⟩
        · rintro ⟨rfl | ha, hb⟩
          · exact Or.inl rfl
          · exact Or.inr ⟨ha, hb⟩
    · refine ⟨?_, ?_, ?_⟩
      · simp only [List.mem_cons]
        rw [ih1]
        constructor
        · rintro ⟨ha, hb⟩; exact ⟨Or.inr ha, hb⟩
        · rintro ⟨rfl | ha, hb⟩
          · exact absurd hb h1
          · exact ⟨ha, hb⟩
      · simp only [List.mem_cons]
        rw [ih2]
        constructor
        · rintro ⟨ha, hb⟩; exact ⟨Or.inr ha, hb⟩
        · rintro ⟨rfl | ha, hb⟩
          · exact absurd hb.2 h2
          · exact ⟨ha, hb⟩
      · simp only [List.mem_cons]
        rw [ih3]
        constructor
        · rintro ⟨ha, hb⟩; exact ⟨Or.inr ha, hb⟩
        · rintro ⟨rfl | ha, hb⟩
          · exact absurd hb.2.2 h3
          · exact ⟨ha, hb⟩

lemma filter_map_filter {α β : Type} (q : α → Bool) (p : β → Bool)
    (f : α → β) :
    ∀ l : List α, ((l.filter q).map f).filter p =
      (l.filter fun a => q a && p (f a)).map f := by
  intro l
  induction l with
  | nil => rfl
  | cons a t ih =>
    cases hq : q a <;> cases hp : p (f a) <;>
      simp [List.filter_cons, hq, hp, ih]

lemma hasContact_format (s : Subscriber) :
    hasContact (formatRecipient s) =
      ((s.preferences.emailAlerts && optTruthy s.email) ||
        (s.preferences.smsAlerts && optTruthy s.phone)) := by
  cases hE : s.preferences.emailAlerts <;>
    cases hS : s.preferences.smsAlerts <;>
      simp [hasContact, formatRecipient, optTruthy, hE, hS]

lemma contains_mem (l : List String) (x : String) :
    l.contains x = true ↔ x ∈ l := by
  exact List.elem_iff

lemma transpFailures_channel_sms (cfg : Config) (alert : ReqAlert)
    (net : Nat → HttpResponse) :
    ∀ (rs : List Recipient) (k : Nat) (e : ErrEntry),
      e ∈ transpFailures cfg alert net k rs → e.channel = .sms := by
  intro rs
  induction rs with
  | nil => intro k e h; simp [transpFailures] at h
  | cons r rest ih =>
    intro k e h
    rw [transpFailures] at h
    rcases List.mem_append.1 h with h | h
    · exact transp_channel_sms cfg alert net (issuedOf cfg r) k e h
    · exact ih _ e h

lemma smsSlot_eq (cfg : Config) (alert : ReqAlert) (net : Nat → HttpResponse)
    (k : Nat) (r : Recipient) :
    (smsSlot cfg alert net k r).1 =
      (smsPart cfg r).2 ++
        transportErrorsOf (smsPart cfg r).1
          (runResultsFrom cfg alert net k (smsPart cfg r).1)
    ∧ (smsSlot cfg alert net k r).2 = k + (smsPart cfg r).1.length := by
  unfold smsSlot smsPart
  split_ifs with h1 h2
  · constructor
    · cases hr : sendTask cfg alert (net k) ⟨.sms, r.phone.getD "", langOf r⟩ <;>
        simp [transportErrorsOf, runResultsFrom, hr]
    · simp
  · constructor <;> simp [transportErrorsOf, runResultsFrom]
  · constructor <;> simp [transportErrorsOf, runResultsFrom]

lemma emailSlot_eq (cfg : Config) (alert : ReqAlert)
    (net : Nat → HttpResponse) (k : Nat) (r : Recipient) :
    (emailSlot cfg alert net k r).1 =
      (emailPart cfg r).2 ++
        transportErrorsOf (emailPart cfg r).1
          (runResultsFrom cfg alert net k (emailPart cfg r).1)
    ∧ (emailSlot cfg alert net k r).2 = k + (emailPart cfg r).1.length := by
  unfold emailSlot emailPart
  split_ifs with h1 h2
  · constructor
    · cases hr : sendTask cfg alert (net k) ⟨.email, r.email.getD "", langOf r⟩ <;>
        simp [transportErrorsOf, runResultsFrom, hr]
    · simp
  · constructor <;> simp [transportErrorsOf, runResultsFrom]
  · constructor <;> simp [transportErrorsOf, runResultsFrom]

lemma append_middle_perm {α : Type} (p1 p2 p3 p4 : List α) :
    List.Perm (p1 ++ p2 ++ (p3 ++ p4)) (p1 ++ p3 ++ (p2 ++ p4)) := by
  simp only [List.append_assoc]
  apply List.Perm.append_left
  simp only [← List.append_assoc]
  exact List.Perm.append_right p4 List.perm_append_comm

lemma slots_perm (cfg : Config) (alert : ReqAlert) (net : Nat → HttpResponse)
    (k : Nat) (r : Recipient) :
    List.Perm
      ((smsSlot cfg alert net k r).1 ++
        (emailSlot cfg alert net (smsSlot cfg alert net k r).2 r).1)
      (((smsPart cfg r).2 ++ (emailPart cfg r).2) ++
        transportErrorsOf (issuedOf cfg r)
          (runResultsFrom cfg alert net k (issuedOf cfg r)))
    ∧ (emailSlot cfg alert net (smsSlot cfg alert net k r).2 r).2 =
        k + (issuedOf cfg r).length := by
  obtain ⟨hs1, hk1⟩ := smsSlot_eq cfg alert net k r
  obtain ⟨he1, hk2⟩ :=
    emailSlot_eq cfg alert net (smsSlot cfg alert net k r).2 r
  rw [hs1, he1, hk2, hk1]
  unfold issuedOf
  rw [runResultsFrom_append,
    transportErrorsOf_append _ _ _ _ (length_runResultsFrom cfg alert net _ k)]
  constructor
  · exact append_middle_perm _ _ _ _
  · simp only [List.length_append]
    omega

lemma errors_perm (cfg : Config) (alert : ReqAlert)
    (net : Nat → HttpResponse) :
    ∀ (rs : List Recipient) (k : Nat),
      List.Perm
        (gatedFailures cfg rs ++ transpFailures cfg alert net k rs)
        (enumOrderFailures cfg alert net k rs) := by
  intro rs
  induction rs with
  | nil => intro k; simp [gatedFailures, transpFailures, enumOrderFailures]
  | cons r rest ih =>
    intro k
    rw [gatedFailures, transpFailures, enumOrderFailures]
    obtain ⟨hperm, hk⟩ := slots_perm cfg alert net k r
    have h1 : List.Perm
        (((smsPart cfg r).2 ++ ((emailPart cfg r).2 ++ gatedFailures cfg rest)) ++
          (transportErrorsOf (issuedOf cfg r)
              (runResultsFrom cfg alert net k (issuedOf cfg r)) ++
            transpFailures cfg alert net (k + (issuedOf cfg r).length) rest))
        ((((smsPart cfg r).2 ++ (emailPart cfg r).2) ++
            transportErrorsOf (issuedOf cfg r)
              (runResultsFrom cfg alert net k (issuedOf cfg r))) ++
          (gatedFailures cfg rest ++
            transpFailures cfg alert net (k + (issuedOf cfg r).length) rest)) := by
      have h := append_middle_perm ((smsPart cfg r).2 ++ (emailPart cfg r).2)
        (gatedFailures cfg rest)
        (transportErrorsOf (issuedOf cfg r)
          (runResultsFrom cfg alert net k (issuedOf cfg r)))
        (transpFailures cfg alert net (k + (issuedOf cfg r).length) rest)
      simpa [List.append_assoc] using h
    refine h1.trans ?_
    have h2 := (hperm.symm.append (ih (k + (issuedOf cfg r).length)))
    refine h2.trans ?_
    rw [hk]
    simp [List.append_assoc]

/-- C1: in every distribution run answered with a 200 response, the counts
satisfy `sent + failed = attempted` (one attempted task per recipient per
provided non-empty channel address, whether the channel is enabled or
gated), `failed` equals the number of early configuration failures plus the
number of rejected send operations, and the errors array has length exactly
`failed`. -/
theorem c1_report_count_invariant (cfg : Config) (alert : ReqAlert)
    (recipients : List Recipient) (parseError : String)
    (net : Nat → HttpResponse) :
    serveHandler cfg (some ⟨recipients, alert⟩) parseError net =
      .report 200 (runReport cfg alert recipients net)
    ∧ (runReport cfg alert recipients net).sent +
        (runReport cfg alert recipients net).failed =
      attemptedCount recipients
    ∧ (runReport cfg alert recipients net).failed =
      (gatedFailures cfg recipients).length +
        (transpFailures cfg alert net 0 recipients).length
    ∧ (runReport cfg alert recipients net).errors.length =
      (runReport cfg alert recipients net).failed := by
  refine ⟨rfl, runReport_count cfg alert recipients net, ?_, ?_⟩
  · rw [runReport_failed, runReport_errors, List.length_append]
  · rw [runReport_failed]

/-- C7 counterexample: with the email gate closed, one phone-only recipient
whose SMS send is rejected followed by one email-only recipient, the
report's errors array is not in task-enumeration order (the later
recipient's gated email failure is listed before the earlier recipient's
SMS transport failure). -/
theorem c7_counterexample :
    (runReport cfgNoHost alertPlain [recipPhone, recipEmail] netFail).errors ≠
      enumOrderFailures cfgNoHost alertPlain netFail 0
        [recipPhone, recipEmail] := by
  decide

/-- C7 (amended): the errors sequence contains exactly one entry per failed
task — it is a permutation of the failed tasks read in enumeration order —
but the order is grouped, not interleaved: all early configuration failures
first (recipients in submission order, SMS before email per recipient),
then all transport failures (in the same enumeration order). -/
theorem c7_errors_grouped (cfg : Config) (alert : ReqAlert)
    (recipients : List Recipient) (net : Nat → HttpResponse) :
    (runReport cfg alert recipients net).errors =
      gatedFailures cfg recipients ++
        transpFailures cfg alert net 0 recipients
    ∧ List.Perm (runReport cfg alert recipients net).errors
        (enumOrderFailures cfg alert net 0 recipients) := by
  refine ⟨runReport_errors cfg alert recipients net, ?_⟩
  rw [runReport_errors]
  exact errors_perm cfg alert net recipients 0

/-- C8: the report's `success` flag is true iff `failed = 0`; every parsed
request is answered with a 200 report (partial delivery failure included),
and the 500 response `{success: false, error, sent: 0, failed: 0}` is
produced exactly for the unparseable request. -/
theorem c8_success_and_statuses (cfg : Config) (alert : ReqAlert)
    (recipients : List Recipient) (parseError : String)
    (net : Nat → HttpResponse) :
    ((runReport cfg alert recipients net).success = true ↔
      (runReport cfg alert recipients net).failed = 0)
    ∧ serveHandler cfg (some ⟨recipients, alert⟩) parseError net =
      .report 200 (runReport cfg alert recipients net)
    ∧ serveHandler cfg none parseError net =
      .failure 500 false parseError 0 0 := by
  refine ⟨?_, rfl, rfl⟩
  simp [runReport, aggregateReport]

/-- C2: for every epicenter and catalog entry, zone classification puts the
entry in `immediate` iff its Haversine distance is at most 5 km, in
`nearby` iff it is over 5 and at most 25 km, in `regional` iff over 25 and
at most 100 km, and in no bucket iff it is over 100 km; the buckets are
pairwise disjoint (upper boundaries inclusive, so exactly 5.000 km is
immediate, not nearby). -/
theorem c2_zone_classification (e : Coordinates) (c : LocationInfo) :
    (c ∈ (getAlertZones e).immediate ↔
      c ∈ getMajorIndianCities ∧ calculateDistance e c.coordinates ≤ 5)
    ∧ (c ∈ (getAlertZones e).nearby ↔
      c ∈ getMajorIndianCities ∧ 5 < calculateDistance e c.coordinates ∧
        calculateDistance e c.coordinates ≤ 25)
    ∧ (c ∈ (getAlertZones e).regional ↔
      c ∈ getMajorIndianCities ∧ 25 < calculateDistance e c.coordinates ∧
        calculateDistance e c.coordinates ≤ 100)
    ∧ ((c ∈ getMajorIndianCities ∧ 100 < calculateDistance e c.coordinates) ↔
      (c ∈ getMajorIndianCities ∧ c ∉ (getAlertZones e).immediate ∧
        c ∉ (getAlertZones e).nearby ∧ c ∉ (getAlertZones e).regional))
    ∧ ¬ (c ∈ (getAlertZones e).immediate ∧ c ∈ (getAlertZones e).nearby)
    ∧ ¬ (c ∈ (getAlertZones e).immediate ∧ c ∈ (getAlertZones e).regional)
    ∧ ¬ (c ∈ (getAlertZones e).nearby ∧ c ∈ (getAlertZones e).regional) := by
  obtain ⟨h1, h2, h3⟩ := zonesAmong_mem e getMajorIndianCities c
  have hgz : getAlertZones e = zonesAmong e getMajorIndianCities := rfl
  rw [hgz]
  refine ⟨h1, ?_, ?_, ?_, ?_, ?_, ?_⟩
  · rw [h2, not_le]
  · rw [h3]
    constructor
    · rintro ⟨hm, _, hb, hc⟩
      exact ⟨hm, not_le.1 hb, hc⟩
    · rintro ⟨hm, hb, hc⟩
      refine ⟨hm, ?_, not_le.2 hb, hc⟩
      intro h5
      linarith
  · constructor
    · rintro ⟨hm, hgt⟩
      refine ⟨hm, ?_, ?_, ?_⟩
      · intro hmem
        rw [h1] at hmem
        linarith [hmem.2]
      · intro hmem
        rw [h2] at hmem
        linarith [hmem.2.2]
      · intro hmem
        rw [h3] at hmem
        linarith [hmem.2.2.2]
    · rintro ⟨hm, hni, hnn, hnr⟩
      refine ⟨hm, ?_⟩
      by_contra hle
      push_neg at hle
      rcases le_or_lt (calculateDistance e c.coordinates) 5 with hc5 | hc5
      · exact hni (h1.2 ⟨hm, hc5⟩)
      · rcases le_or_lt (calculateDistance e c.coordinates) 25 with hc25 | hc25
        · exact hnn (h2.2 ⟨hm, not_le.2 hc5, hc25⟩)
        · exact hnr (h3.2 ⟨hm, not_le.2 hc5, not_le.2 hc25, hle⟩)
  · rintro ⟨ha, hb⟩
    rw [h1] at ha
    rw [h2] at hb
    exact hb.2.1 ha.2
  · rintro ⟨ha, hb⟩
    rw [h1] at ha
    rw [h3] at hb
    exact hb.2.1 ha.2
  · rintro ⟨ha, hb⟩
    rw [h2] at ha
    rw [h3] at hb
    exact hb.2.2.1 ha.2.2

/-- C3: the zone list built for an alert keeps the original severity on the
immediate zone, applies exactly one degradation step on the nearby zone
(critical→warning, warning→info, info→info), and materializes a regional
zone only when the original severity is critical, in which case its
severity is exactly info. -/
theorem c3_severity_policy :
    (∀ (coords : Coordinates) (s : Severity),
      defineAlertZones coords s =
        defineAlertZonesFrom (getAlertZones coords) s)
    ∧ reduceSeverity .critical = .warning
    ∧ reduceSeverity .warning = .info
    ∧ reduceSeverity .info = .info
    ∧ ∀ (buckets : GeoZones) (s : Severity) (z : AlertZone),
        z ∈ defineAlertZonesFrom buckets s →
          (z.type = .immediate → z.severity = s)
          ∧ (z.type = .nearby → z.severity = reduceSeverity s)
          ∧ (z.type = .regional → s = .critical ∧ z.severity = .info) := by
  refine ⟨fun _ _ => rfl, rfl, rfl, rfl, ?_⟩
  intro buckets s z hz
  unfold defineAlertZonesFrom at hz
  rcases List.mem_append.1 hz with h | h
  · have hz2 : z = ⟨.immediate, s, buckets.immediate.map (·.city), 5⟩ := by
      by_cases hi : 0 < buckets.immediate.length
      · rw [if_pos hi] at h
        simpa using h
      · rw [if_neg hi] at h
        simp at h
    subst hz2
    exact ⟨fun _ => rfl, by simp, by simp⟩
  · rcases List.mem_append.1 h with h2 | h2
    · have hz2 : z = ⟨.nearby, reduceSeverity s,
          buckets.nearby.map (·.city), 25⟩ := by
        by_cases hn : 0 < buckets.nearby.length
        · rw [if_pos hn] at h2
          simpa using h2
        · rw [if_neg hn] at h2
          simp at h2
      subst hz2
      exact ⟨by simp, fun _ => rfl, by simp⟩
    · by_cases hr : s = .critical ∧ 0 < buckets.regional.length
      · rw [if_pos hr] at h2
        have hz2 : z = ⟨.regional, .info,
            buckets.regional.map (·.city), 100⟩ := by simpa using h2
        subst hz2
        exact ⟨by simp, by simp, fun _ => ⟨hr.1, rfl⟩⟩
      · rw [if_neg hr] at h2
        simp at h2

/-- Witness for C3: with all three buckets inhabited and a critical
original severity, the produced regional zone indeed has severity info. -/
theorem c3_severity_policy_witness :
    ((⟨.regional, .info, ["Gamma"], 100⟩ : AlertZone) ∈
      defineAlertZonesFrom bucketsSample .critical)
    ∧ (Severity.critical = .critical ∧
        (⟨.regional, .info, ["Gamma"], 100⟩ : AlertZone).severity = .info) := by
  have hm : (⟨.regional, .info, ["Gamma"], 100⟩ : AlertZone) ∈
      defineAlertZonesFrom bucketsSample .critical := by decide
  exact ⟨hm,
    (c3_severity_policy.2.2.2.2 bucketsSample .critical _ hm).2.2 rfl⟩

/-- C5: a channel's gate is closed exactly when one of its settings is
empty (SMS: account identifier, auth credential, sending number; email:
host, username, password, from-address); with a closed gate, every task on
that channel is recorded as a failed outcome whose reason names the channel
and its missing settings, and no send operation is issued for that channel
(no task of that channel is ever enumerated for dispatch). -/
theorem c5_config_gate_fail_fast (cfg : Config) (alert : ReqAlert)
    (recipients : List Recipient) (net : Nat → HttpResponse) :
    (smsEnabled cfg = false ↔
      (optTruthy cfg.twilioAccountSid = false ∨
        optTruthy cfg.twilioAuthToken = false ∨
        optTruthy cfg.twilioPhoneNumber = false))
    ∧ (emailEnabled cfg = false ↔
      (optTruthy cfg.smtpHost = false ∨ optTruthy cfg.fromEmail = false ∨
        optTruthy cfg.smtpUser = false ∨ optTruthy cfg.smtpPass = false))
    ∧ (smsEnabled cfg = false →
        (∀ r ∈ recipients, optTruthy r.phone = true →
          (⟨.sms, r.phone.getD "", none, smsGateReason cfg⟩ : ErrEntry) ∈
            (runReport cfg alert recipients net).errors)
        ∧ ∀ m ∈ (enumTasks cfg recipients).1, m.channel ≠ .sms)
    ∧ (emailEnabled cfg = false →
        (∀ r ∈ recipients, optTruthy r.email = true →
          (⟨.email, r.email.getD "", none, emailGateReason cfg⟩ : ErrEntry) ∈
            (runReport cfg alert recipients net).errors)
        ∧ ∀ m ∈ (enumTasks cfg recipients).1, m.channel ≠ .email) := by
  refine ⟨?_, ?_, ?_, ?_⟩
  · cases h1 : optTruthy cfg.twilioAccountSid <;>
      cases h2 : optTruthy cfg.twilioAuthToken <;>
        cases h3 : optTruthy cfg.twilioPhoneNumber <;>
          simp [smsEnabled, missingTwilio, h1, h2, h3]
  · cases h1 : optTruthy cfg.smtpHost <;>
      cases h2 : optTruthy cfg.fromEmail <;>
        cases h3 : optTruthy cfg.smtpUser <;>
          cases h4 : optTruthy cfg.smtpPass <;>
            simp [emailEnabled, missingSmtp, h1, h2, h3, h4]
  · intro hsms
    refine ⟨?_, fun m hm => gated_no_tasks_sms cfg hsms recipients m hm⟩
    intro r hr hp
    rw [runReport_errors]
    exact List.mem_append_left _ (gated_sms_mem cfg hsms recipients r hr hp)
  · intro hmail
    refine ⟨?_, fun m hm => gated_no_tasks_email cfg hmail recipients m hm⟩
    intro r hr hp
    rw [runReport_errors]
    exact List.mem_append_left _
      (gated_email_mem cfg hmail recipients r hr hp)

/-- Witness for C5: with the Twilio account id missing, the phone-only
recipient's task is recorded as a gated failure naming the missing setting
and no SMS task is issued; symmetrically for a missing SMTP host. -/
theorem c5_config_gate_fail_fast_witness :
    smsEnabled cfgNoSid = false
    ∧ (⟨.sms, "p1", none, smsGateReason cfgNoSid⟩ : ErrEntry) ∈
        (runReport cfgNoSid alertPlain [recipPhone] netOk).errors
    ∧ (∀ m ∈ (enumTasks cfgNoSid [recipPhone]).1, m.channel ≠ .sms)
    ∧ emailEnabled cfgNoHost = false
    ∧ (⟨.email, "e1", none, emailGateReason cfgNoHost⟩ : ErrEntry) ∈
        (runReport cfgNoHost alertPlain [recipEmail] netOk).errors
    ∧ (∀ m ∈ (enumTasks cfgNoHost [recipEmail]).1, m.channel ≠ .email) := by
  refine ⟨by decide, ?_, ?_, by decide, ?_, ?_⟩
  · exact ((c5_config_gate_fail_fast cfgNoSid alertPlain [recipPhone]
      netOk).2.2.1 (by decide)).1 recipPhone (by decide) (by decide)
  · exact ((c5_config_gate_fail_fast cfgNoSid alertPlain [recipPhone]
      netOk).2.2.1 (by decide)).2
  · exact ((c5_config_gate_fail_fast cfgNoHost alertPlain [recipEmail]
      netOk).2.2.2 (by decide)).1 recipEmail (by decide) (by decide)
  · exact ((c5_config_gate_fail_fast cfgNoHost alertPlain [recipEmail]
      netOk).2.2.2 (by decide)).2

/-- C6: `sendEnhancedEmail` unconditionally resolves with status
`delivered` (its outcome depends on no transport response), so whenever the
email gate is open a run's error entries can only carry the SMS channel —
no email task ever contributes a transport-failure outcome. -/
theorem c6_email_always_delivers :
    (∀ (email : String) (alert : ReqAlert) (language : String),
      sendEnhancedEmail email alert language =
        .ok ⟨"Email", email, "delivered", language⟩)
    ∧ ∀ (cfg : Config) (alert : ReqAlert) (recipients : List Recipient)
        (net : Nat → HttpResponse),
        emailEnabled cfg = true →
          ∀ e ∈ (runReport cfg alert recipients net).errors,
            e.channel = .sms := by
  refine ⟨fun _ _ _ => rfl, ?_⟩
  intro cfg alert recipients net hmail e he
  rw [runReport_errors] at he
  rcases List.mem_append.1 he with h | h
  · exact gated_channel_sms cfg hmail recipients e h
  · exact transpFailures_channel_sms cfg alert net recipients 0 e h

/-- Witness for C6: with everything configured and a failing transport, the
run with one two-channel recipient produces exactly one error and it is the
SMS one. -/
theorem c6_email_always_delivers_witness :
    emailEnabled cfgAll = true
    ∧ (⟨.sms, "p2", some "en", "SMS delivery failed: 500 boom"⟩ : ErrEntry) ∈
        (runReport cfgAll alertPlain [recipBoth] netFail).errors
    ∧ (⟨.sms, "p2", some "en",
        "SMS delivery failed: 500 boom"⟩ : ErrEntry).channel = .sms := by
  have hm : (⟨.sms, "p2", some "en",
      "SMS delivery failed: 500 boom"⟩ : ErrEntry) ∈
      (runReport cfgAll alertPlain [recipBoth] netFail).errors := by decide
  exact ⟨by decide, hm,
    c6_email_always_delivers.2 cfgAll alertPlain [recipBoth] netFail
      (by decide) _ hm⟩

/-- C4: the recipient list eventually submitted for a zone is exactly the
subscribers passing the combined inclusion predicate, and that predicate
holds iff (1) the subscriber's city and some zone member city match by
bidirectional case-insensitive substring, (2) the zone's severity is in the
subscriber's severity filter, (3) the alert's type is in the subscriber's
type filter, and (4) some channel opt-in is set with a non-empty matching
address. -/
theorem c4_subscriber_inclusion (zone : AlertZone) (alert : ClientAlert)
    (subscribers : List Subscriber) :
    zoneRecipients zone alert subscribers =
      (subscribers.filter fun s => includeSubscriber zone alert s).map
        formatRecipient
    ∧ ∀ s : Subscriber, includeSubscriber zone alert s = true ↔
        ((∃ city ∈ zone.cities,
            lcIncludes s.city city = true ∨ lcIncludes city s.city = true)
          ∧ sevString zone.severity ∈ s.preferences.severityLevels
          ∧ alert.type ∈ s.preferences.alertTypes
          ∧ ((s.preferences.emailAlerts = true ∧ optTruthy s.email = true) ∨
              (s.preferences.smsAlerts = true ∧
                optTruthy s.phone = true))) := by
  constructor
  · unfold zoneRecipients includeSubscriber
    exact filter_map_filter _ _ _ subscribers
  · intro s
    unfold includeSubscriber matchesZone
    rw [hasContact_format]
    by_cases hin : (zone.cities.any fun city =>
        lcIncludes s.city city || lcIncludes city s.city) = true
    · have hex := List.any_eq_true.1 hin
      simp only [Bool.or_eq_true] at hex
      simp [hin, Bool.and_eq_true, contains_mem, Bool.or_eq_true, hex,
        and_assoc]
    · have hnex : ¬ ∃ city ∈ zone.cities,
          lcIncludes s.city city = true ∨ lcIncludes city s.city = true := by
        intro hex
        exact hin (List.any_eq_true.2 (by simpa [Bool.or_eq_true] using hex))
      simp only [Bool.not_eq_true] at hin
      simp [hin, hnex]

/-- C9: the aggregated report is independent of the wall-clock completion
order of the concurrently issued send operations — any two completion
schedules that are permutations of the task indices yield identical
reports (same sent and failed counts, identical error ordering). -/
theorem c9_schedule_independent (cfg : Config) (alert : ReqAlert)
    (recipients : List Recipient) (net : Nat → HttpResponse)
    (sched sched2 : List Nat)
    (h : List.Perm sched
      (List.range (enumTasks cfg recipients).1.length))
    (h2 : List.Perm sched2
      (List.range (enumTasks cfg recipients).1.length)) :
    runReportScheduled cfg alert recipients net sched =
      runReportScheduled cfg alert recipients net sched2 := by
  rw [runReportScheduled_eq cfg alert recipients net sched h,
    runReportScheduled_eq cfg alert recipients net sched2 h2]

/-- Witness for C9: a two-task run settled in reversed completion order
produces the same report as in enumeration order. -/
theorem c9_schedule_independent_witness :
    List.Perm [1, 0] (List.range (enumTasks cfgAll [recipBoth]).1.length)
    ∧ List.Perm [0, 1] (List.range (enumTasks cfgAll [recipBoth]).1.length)
    ∧ runReportScheduled cfgAll alertPlain [recipBoth] netFail [1, 0] =
        runReportScheduled cfgAll alertPlain [recipBoth] netFail [0, 1] := by
  exact ⟨by decide, by decide,
    c9_schedule_independent cfgAll alertPlain [recipBoth] netFail [1, 0]
      [0, 1] (by decide) (by decide)⟩

/-- C10: when the alert's languages map has no entry for the requested
language, both message builders fall back to the alert's base title and
description; when an entry exists, its localized content is used. -/
theorem c10_localized_fallback (alert : ReqAlert) (language : String) :
    (langLookup alert language = none →
      createEnhancedSMSMessage alert language =
        smsTemplateCore alert ⟨alert.title, alert.description⟩
      ∧ createEnhancedEmailMessage alert language =
        emailTemplateCore alert language ⟨alert.title, alert.description⟩)
    ∧ ∀ c : LangContent, langLookup alert language = some c →
      createEnhancedSMSMessage alert language = smsTemplateCore alert c
      ∧ createEnhancedEmailMessage alert language =
        emailTemplateCore alert language c := by
  constructor
  · intro h
    unfold createEnhancedSMSMessage createEnhancedEmailMessage localizedFor
    rw [h]
    exact ⟨rfl, rfl⟩
  · intro c h
    unfold createEnhancedSMSMessage createEnhancedEmailMessage localizedFor
    rw [h]
    exact ⟨rfl, rfl⟩

/-- Witness for C10: an alert without a Tamil entry renders the base
content; one with a Tamil entry renders the localized content. -/
theorem c10_localized_fallback_witness :
    langLookup alertPlain "ta" = none
    ∧ createEnhancedSMSMessage alertPlain "ta" =
        smsTemplateCore alertPlain ⟨alertPlain.title, alertPlain.description⟩
    ∧ langLookup alertWithTa "ta" = some ⟨"T-title", "T-desc"⟩
    ∧ createEnhancedSMSMessage alertWithTa "ta" =
        smsTemplateCore alertWithTa ⟨"T-title", "T-desc"⟩ := by
  refine ⟨rfl, ((c10_localized_fallback alertPlain "ta").1 rfl).1, by decide,
    ((c10_localized_fallback alertWithTa "ta").2 ⟨"T-title", "T-desc"⟩
      (by decide)).1⟩

/-- Witness for C2: the classification characterization instantiated at the
Chennai epicenter and the Chennai catalog entry. -/
theorem c2_zone_classification_witness :
    ((mkLoc "Chennai" "Tamil Nadu" 13.0827 80.2707 "South") ∈
      (getAlertZones ⟨13.0827, 80.2707⟩).immediate ↔
      (mkLoc "Chennai" "Tamil Nadu" 13.0827 80.2707 "South") ∈
        getMajorIndianCities ∧
        calculateDistance ⟨13.0827, 80.2707⟩
          (mkLoc "Chennai" "Tamil Nadu" 13.0827 80.2707 "South").coordinates
          ≤ 5)
    ∧ ¬ ((mkLoc "Chennai" "Tamil Nadu" 13.0827 80.2707 "South") ∈
        (getAlertZones ⟨13.0827, 80.2707⟩).immediate ∧
      (mkLoc "Chennai" "Tamil Nadu" 13.0827 80.2707 "South") ∈
        (getAlertZones ⟨13.0827, 80.2707⟩).nearby) := by
  exact ⟨(c2_zone_classification ⟨13.0827, 80.2707⟩
      (mkLoc "Chennai" "Tamil Nadu" 13.0827 80.2707 "South")).1,
    (c2_zone_classification ⟨13.0827, 80.2707⟩
      (mkLoc "Chennai" "Tamil Nadu" 13.0827 80.2707 "South")).2.2.2.2.1⟩

/-- Witness for C4: the inclusion characterization instantiated at a
concrete zone, alert and subscriber; the subscriber passes all four
conditions and the predicate evaluates to true. -/
theorem c4_subscriber_inclusion_witness :
    includeSubscriber ⟨.immediate, .critical, ["Chennai"], 5⟩
      ⟨"a1", "T", "D", .critical, "earthquake", "Chennai"⟩
      ⟨"u1", some "s@x", some "p9", "Chennai", none,
        ⟨"en", true, true, ["critical"], ["earthquake"]⟩⟩ = true
    ∧ (includeSubscriber ⟨.immediate, .critical, ["Chennai"], 5⟩
        ⟨"a1", "T", "D", .critical, "earthquake", "Chennai"⟩
        ⟨"u1", some "s@x", some "p9", "Chennai", none,
          ⟨"en", true, true, ["critical"], ["earthquake"]⟩⟩ = true ↔
      ((∃ city ∈ (⟨.immediate, .critical, ["Chennai"], 5⟩ : AlertZone).cities,
          lcIncludes "Chennai" city = true ∨
            lcIncludes city "Chennai" = true)
        ∧ sevString .critical ∈ ["critical"]
        ∧ "earthquake" ∈ ["earthquake"]
        ∧ ((true = true ∧ optTruthy (some "s@x") = true) ∨
            (true = true ∧ optTruthy (some "p9") = true)))) := by
  exact ⟨by decide,
    (c4_subscriber_inclusion ⟨.immediate, .critical, ["Chennai"], 5⟩
      ⟨"a1", "T", "D", .critical, "earthquake", "Chennai"⟩ []).2
      ⟨"u1", some "s@x", some "p9", "Chennai", none,
        ⟨"en", true, true, ["critical"], ["earthquake"]⟩⟩⟩

/-- Witness for C8: at a concrete run with one rejected SMS send, the
success flag is false with a non-zero failed count, the parsed request
gets a 200, and the unparseable request gets the 500 failure body. -/
theorem c8_success_and_statuses_witness :
    ((runReport cfgAll alertPlain [recipPhone] netFail).success = true ↔
      (runReport cfgAll alertPlain [recipPhone] netFail).failed = 0)
    ∧ serveHandler cfgAll (some ⟨[recipPhone], alertPlain⟩) "bad json"
        netFail = .report 200 (runReport cfgAll alertPlain [recipPhone]
        netFail)
    ∧ serveHandler cfgAll none "bad json" netFail =
        .failure 500 false "bad json" 0 0 := by
  exact c8_success_and_statuses cfgAll alertPlain [recipPhone] "bad json"
    netFail
